import Mathlib

/-!
Verification of the beeflang tree-walking interpreter (Go sources under
internal/evaluator plus the command-line entry point in main.go).

The evaluator (internal/evaluator/environment.go) is embedded as a
fuel-indexed functional big-step interpreter.  Runtime objects are a tagged
union mirroring the object package; heap-allocated objects (every Go
value created with a pointer literal) carry an allocation number `ref`, so
that Go's pointer equality on interface values (used by the infix fallback
comparison) is expressible.  The Boolean and Null objects are the
process-wide singletons TRUE/FALSE/NULL, so they carry no allocation
number: pointer equality on them coincides with value equality.

Go's nillable `object.Object` interface is `Option Obj`; a Go runtime
panic (index out of range, nil dereference, integer division by zero) is
the result `Res.crash`; exhaustion of the step budget is `Res.fuelOut`,
an artifact of the embedding that a sufficiently large budget avoids.
-/

namespace Beeflang

/-! ## The AST

Node shapes are taken from the fields the evaluator reads (node types
live in internal/ast, which only the evaluator and parser consume).
The token a node carries is used by the evaluator only to position error
messages, so line/column are kept exactly on the node kinds whose token
`newError` can receive: identifiers, prefix and infix expressions and
function calls. -/

inductive Expr where
  | identifier (name : String) (line col : Nat)
  | integerLiteral (value : Int)
  | booleanLiteral (value : Bool)
  | stringLiteral (value : String)
  | prefixExpression (operator : String) (right : Expr) (line col : Nat)
  | infixExpression (operator : String) (left right : Expr) (line col : Nat)
  | functionCall (function : Expr) (arguments : List Expr) (line col : Nat)
  | memberAccessExpression (object : Expr) (member : String)
  deriving Repr

inductive Stmt where
  | variableDeclaration (name : String) (value : Expr)
  | assignmentStatement (name : String) (value : Expr)
  | blockStatement (statements : List Stmt)
  | ifStatement (condition : Expr) (consequence : Stmt) (alternative : Option Stmt)
  | whileLoop (condition : Expr) (body : Stmt)
  | functionDeclaration (name : String) (parameters : List String) (body : Stmt)
  | returnStatement (returnValue : Expr)
  | wrangleStatement (moduleName : String)
  | expressionStatement (e : Expr)
  deriving Repr

/-- An `ast.Node` as the evaluator's `Eval` dispatches on it: the program
root, a statement, or an expression. -/
inductive Node where
  | program (statements : List Stmt)
  | stmt (s : Stmt)
  | expr (e : Expr)
  deriving Repr

/-! ## Runtime objects (internal/object) -/

/-- The two native routines registered by createIOModule. -/
inductive BuiltinFn where
  | preach
  | input
  deriving Repr, DecidableEq

/-- A runtime value.  `ref` is the allocation number standing for the Go
pointer of a heap-allocated object; `boolean` and `null` are the
singletons TRUE/FALSE/NULL (reference-compared, so no `ref` is needed:
two booleans of equal truth value are the same Go pointer).  A Function
records its parameter names, body block and a reference to its defining
environment, as in object.Function.  A ReturnValue wraps the (nillable)
object a return statement produced. -/
inductive Obj where
  | integer (value : Int) (ref : Nat)
  | boolean (value : Bool)
  | string (value : String) (ref : Nat)
  | null
  | function (parameters : List String) (body : Stmt) (env : Nat) (ref : Nat)
  | builtin (fn : BuiltinFn) (ref : Nat)
  | module (name : String) (members : List (String × Obj)) (ref : Nat)
  | returnValue (value : Option Obj) (ref : Nat)
  | error (message : String) (line col : Nat) (ref : Nat)
  deriving Repr

/-- Object.Type() tag strings.  INTEGER, BOOLEAN, STRING and NULL are
pinned by the object package's test file; ERROR and RETURN_VALUE by the
evaluator's own string comparisons.  The remaining tags follow the
object kind names of the spec. -/
def typeOf : Obj → String
  | .integer .. => ("INTEGER")
  | .boolean .. => ("BOOLEAN")
  | .string .. => ("STRING")
  | .null => ("NULL")
  | .function .. => ("FUNCTION")
  | .builtin .. => ("BUILTIN")
  | .module .. => ("MODULE")
  | .returnValue .. => ("RETURN_VALUE")
  | .error .. => ("ERROR")

/-- Go `==` on two non-nil `object.Object` interface values: pointer
equality.  Objects of different dynamic types are never the same pointer;
Boolean and Null are the singletons, so pointer equality is truth-value
equality there; for every heap-allocated kind it is equality of the
allocation number. -/
def refEq : Obj → Obj → Bool
  | .boolean a, .boolean b => a == b
  | .null, .null => true
  | .integer _ r1, .integer _ r2 => r1 == r2
  | .string _ r1, .string _ r2 => r1 == r2
  | .function _ _ _ r1, .function _ _ _ r2 => r1 == r2
  | .builtin _ r1, .builtin _ r2 => r1 == r2
  | .module _ _ r1, .module _ _ r2 => r1 == r2
  | .returnValue _ r1, .returnValue _ r2 => r1 == r2
  | .error _ _ _ r1, .error _ _ _ r2 => r1 == r2
  | _, _ => false

/-- Go `==` on two nillable interface values (`nil == nil` is true, a
non-nil value never equals nil). -/
def optRefEq : Option Obj → Option Obj → Bool
  | some a, some b => refEq a b
  | none, none => true
  | _, _ => false

/-! ## The environment and the evaluator state

The Environment type lives in internal/object, which is not among the
sources; its contract is therefore modelled from the spec.
`Modelled from the spec:` a mapping from identifier to value plus an
optional reference to an enclosing environment; lookup walks outward
until found or exhausted; set rebinds in the innermost scope of the chain
where the name already exists, or creates the binding in the current
scope otherwise.  Frames live in a store indexed by allocation order, so
that function values can share their defining environment by reference. -/

structure Frame where
  vars : List (String × Option Obj)
  outer : Option Nat
  deriving Repr

/-- The whole interpreter state: the environment store, the counter
handing out object allocation numbers, and the text written to standard
output / remaining on standard input. -/
structure St where
  frames : List Frame
  nextRef : Nat
  output : List String
  input : List String
  deriving Repr

/-- Allocation of one heap object: returns the fresh allocation number. -/
def allocRef (s : St) : Nat × St :=
  (s.nextRef, { s with nextRef := s.nextRef + 1 })

/-- Modelled from the spec: object.NewEnvironment / NewEnclosedEnvironment —
a fresh frame whose parent is `outer`, added to the store. -/
def newEnclosedEnv (s : St) (outer : Option Nat) : Nat × St :=
  (s.frames.length, { s with frames := s.frames ++ [{ vars := [], outer := outer }] })

def frameLookup : List (String × Option Obj) → String → Option (Option Obj)
  | [], _ => none
  | (k, v) :: rest, name => if k = name then some v else frameLookup rest name

def frameUpdate : List (String × Option Obj) → String → Option Obj → List (String × Option Obj)
  | [], name, v => [(name, v)]
  | (k, w) :: rest, name, v =>
    if k = name then (k, v) :: rest else (k, w) :: frameUpdate rest name v

/-- The frame of the chain starting at `ref` that holds `name`, walking
outward; `gas` only bounds the walk (a well-formed chain is acyclic). -/
def envFindRef (s : St) : Nat → Nat → String → Option Nat
  | 0, _, _ => none
  | gas+1, ref, name =>
    match s.frames.get? ref with
    | none => none
    | some f =>
      if (frameLookup f.vars name).isSome then some ref
      else
        match f.outer with
        | some o => envFindRef s gas o name
        | none => none

/-- Modelled from the spec: Environment.Get — look the name up, walking
outward through the chain; `none` is a miss. -/
def envGet (s : St) (ref : Nat) (name : String) : Option (Option Obj) :=
  match envFindRef s s.frames.length ref name with
  | some r =>
    match s.frames.get? r with
    | some f => frameLookup f.vars name
    | none => none
  | none => none

def stUpdateFrame (s : St) (ref : Nat) (name : String) (v : Option Obj) : St :=
  match s.frames.get? ref with
  | some f => { s with frames := s.frames.set ref { f with vars := frameUpdate f.vars name v } }
  | none => s

/-- Modelled from the spec: Environment.Set — rebind in the innermost
scope of the chain where the name already exists, else create the
binding in the current scope. -/
def envSet (s : St) (ref : Nat) (name : String) (v : Option Obj) : St :=
  match envFindRef s s.frames.length ref name with
  | some r => stUpdateFrame s r name v
  | none => stUpdateFrame s ref name v

/-! ## Evaluation results -/

/-- What one call of Go's `Eval` comes back with: a (nillable) object and
the updated state, or a model-level outcome — `crash` for a Go runtime
panic, `fuelOut` when the step budget of the embedding ran out. -/
inductive Res where
  | ok (value : Option Obj) (s : St)
  | fuelOut
  | crash
  deriving Repr

/-- What `evalExpressions` comes back with: the list of evaluated
arguments in order. -/
inductive ResL where
  | okList (values : List (Option Obj)) (s : St)
  | fuelOut
  | crash
  deriving Repr

/-! ## Small pure helpers of the evaluator -/

/-- isError: a non-nil object whose type tag is ERROR. -/
def isError : Option Obj → Bool
  | some o => typeOf o == ("ERROR")
  | none => false

/-- The test `result != nil && result.Type() == "RETURN_VALUE"` used by
evalBlockStatement and evalWhileLoop. -/
def isReturnValue : Option Obj → Bool
  | some (.returnValue ..) => true
  | _ => false

/-- isTruthy: NULL and FALSE are falsy, everything else (the Go switch's
default case, which nil also reaches) is truthy. -/
def isTruthy : Option Obj → Bool
  | some .null => false
  | some (.boolean false) => false
  | some (.boolean true) => true
  | _ => true

/-- nativeBoolToBooleanObject: the TRUE/FALSE singletons. -/
def nativeBoolToBooleanObject (input : Bool) : Obj :=
  .boolean input

/-- newError: allocate an Error carrying the token's position.  The File
field is never set anywhere in the sources, so it is omitted. -/
def newErrorRes (line col : Nat) (msg : String) (s : St) : Res :=
  let (r, s1) := allocRef s
  .ok (some (.error msg line col r)) s1

/-- Two's-complement wraparound of Go's int64 arithmetic. -/
def wrap64 (x : Int) : Int :=
  (x + 2 ^ 63) % 2 ^ 64 - 2 ^ 63

/-- The int64 range. -/
def inInt64 (x : Int) : Prop :=
  -(2 ^ 63) ≤ x ∧ x < 2 ^ 63

/-- Allocate the Integer result of an arithmetic case. -/
def allocIntRes (v : Int) (s : St) : Res :=
  let (r, s1) := allocRef s
  .ok (some (.integer v r)) s1

/-- evalBangOperator: a switch on the singleton pointers; nil and every
non-singleton object take the default case. -/
def evalBangOperator : Option Obj → Obj
  | some (.boolean true) => .boolean false
  | some (.boolean false) => .boolean true
  | some .null => .boolean true
  | _ => .boolean false

/-- evalMinusPrefixOperator: Integer operands only; `-value` wraps.
Calling Type() on a nil operand would dereference nil. -/
def evalMinusPrefixOperator (line col : Nat) (right : Option Obj) (s : St) : Res :=
  match right with
  | none => .crash
  | some r =>
    if typeOf r ≠ ("INTEGER") then
      newErrorRes line col (("unknown operator: -") ++ typeOf r) s
    else
      match r with
      | .integer v _ => allocIntRes (wrap64 (-v)) s
      | _ => .crash

/-- evalPrefixExpression: dispatch on the operator text. -/
def evalPrefixExpression (line col : Nat) (operator : String) (right : Option Obj) (s : St) : Res :=
  if operator = ("!") then .ok (some (evalBangOperator right)) s
  else if operator = ("-") then evalMinusPrefixOperator line col right s
  else
    match right with
    | some r => newErrorRes line col (("unknown operator: ") ++ operator ++ typeOf r) s
    | none => .crash

/-- evalIntegerInfixExpression: arithmetic wraps as int64; division and
remainder truncate toward zero and panic on a zero divisor. -/
def evalIntegerInfixExpression (line col : Nat) (operator : String) (l r : Obj) (s : St) : Res :=
  match l, r with
  | .integer a _, .integer b _ =>
    if operator = ("+") then allocIntRes (wrap64 (a + b)) s
    else if operator = ("-") then allocIntRes (wrap64 (a - b)) s
    else if operator = ("*") then allocIntRes (wrap64 (a * b)) s
    else if operator = ("/") then
      if b = 0 then .crash else allocIntRes (wrap64 (Int.tdiv a b)) s
    else if operator = ("%") then
      if b = 0 then .crash else allocIntRes (wrap64 (Int.tmod a b)) s
    else if operator = ("<") then .ok (some (nativeBoolToBooleanObject (decide (a < b)))) s
    else if operator = (">") then .ok (some (nativeBoolToBooleanObject (decide (b < a)))) s
    else if operator = ("==") then .ok (some (nativeBoolToBooleanObject (decide (a = b)))) s
    else if operator = ("!=") then .ok (some (nativeBoolToBooleanObject (!decide (a = b)))) s
    else if operator = ("<=") then .ok (some (nativeBoolToBooleanObject (decide (a ≤ b)))) s
    else if operator = (">=") then .ok (some (nativeBoolToBooleanObject (decide (b ≤ a)))) s
    else newErrorRes line col (("unknown operator: ") ++ typeOf l ++ (" ") ++ operator ++ (" ") ++ typeOf r) s
  | _, _ => .crash

/-- evalStringInfixExpression: concatenation plus value equality. -/
def evalStringInfixExpression (line col : Nat) (operator : String) (l r : Obj) (s : St) : Res :=
  match l, r with
  | .string a _, .string b _ =>
    if operator = ("+") then
      let (ref, s1) := allocRef s
      .ok (some (.string (a ++ b) ref)) s1
    else if operator = ("==") then .ok (some (nativeBoolToBooleanObject (a == b))) s
    else if operator = ("!=") then .ok (some (nativeBoolToBooleanObject (a != b))) s
    else newErrorRes line col (("unknown operator: ") ++ typeOf l ++ (" ") ++ operator ++ (" ") ++ typeOf r) s
  | _, _ => .crash

/-- The last two cases of evalInfixExpression's switch: mismatched types,
then unknown operator. -/
def evalInfixMismatch (line col : Nat) (operator : String) (l r : Obj) (s : St) : Res :=
  if typeOf l ≠ typeOf r then
    newErrorRes line col (("type mismatch: ") ++ typeOf l ++ (" ") ++ operator ++ (" ") ++ typeOf r) s
  else
    newErrorRes line col (("unknown operator: ") ++ typeOf l ++ (" ") ++ operator ++ (" ") ++ typeOf r) s

/-- The `operator == "=="` / `operator == "!="` cases of
evalInfixExpression reached once both operands are known non-nil. -/
def evalInfixFallback (line col : Nat) (operator : String) (l r : Obj) (s : St) : Res :=
  if operator = ("==") then .ok (some (nativeBoolToBooleanObject (refEq l r))) s
  else if operator = ("!=") then .ok (some (nativeBoolToBooleanObject (!refEq l r))) s
  else evalInfixMismatch line col operator l r s

/-- evalInfixExpression: the switch's cases in source order, including
which case conditions dereference which operand (Go's `&&` is lazy, so a
nil right operand survives until a case condition calls its Type()). -/
def evalInfixExpression (line col : Nat) (operator : String) (left right : Option Obj) (s : St) : Res :=
  match left with
  | none => .crash
  | some l =>
    if typeOf l = ("INTEGER") then
      match right with
      | none => .crash
      | some r =>
        if typeOf r = ("INTEGER") then evalIntegerInfixExpression line col operator l r s
        else evalInfixFallback line col operator l r s
    else if typeOf l = ("STRING") then
      match right with
      | none => .crash
      | some r =>
        if typeOf r = ("STRING") then evalStringInfixExpression line col operator l r s
        else evalInfixFallback line col operator l r s
    else if operator = ("==") then .ok (some (nativeBoolToBooleanObject (optRefEq (some l) right))) s
    else if operator = ("!=") then .ok (some (nativeBoolToBooleanObject (!optRefEq (some l) right))) s
    else
      match right with
      | none => .crash
      | some r => evalInfixMismatch line col operator l r s

/-- evalIdentifier: environment lookup, miss is an Error at the
identifier's token. -/
def evalIdentifier (name : String) (line col : Nat) (env : Nat) (s : St) : Res :=
  match envGet s env name with
  | some v => .ok v s
  | none => newErrorRes line col (("identifier not found: ") ++ name) s

/-- evalFunctionDeclaration: a Function value capturing the current
environment, bound under its name in that same environment. -/
def evalFunctionDeclaration (name : String) (params : List String) (body : Stmt) (env : Nat) (s : St) : Res :=
  let (r, s1) := allocRef s
  let fn : Obj := .function params body env r
  .ok (some fn) (envSet s1 env name (some fn))

/-- Error.Inspect.  Modelled from the spec: the exact report formats of
section 6; the File variant is omitted because no source under src ever
sets the File field. -/
def errorInspect (msg : String) (line col : Nat) : String :=
  if 0 < line then
    ("Error at line ") ++ toString line ++ (", column ") ++ toString col ++ (" - ") ++ msg
  else ("Error: ") ++ msg

/-- Object.Inspect.  The Integer, Boolean, String and Null forms are
pinned by the object package's test file; Error's by the spec.  Inspect
of the remaining kinds is not pinned by any source under src (it is only
reachable through io.preach), so placeholder text stands in. -/
def inspect : Obj → String
  | .integer v _ => toString v
  | .boolean b => if b then ("true") else ("false")
  | .string v _ => v
  | .null => ("null")
  | .error m line col _ => errorInspect m line col
  | .function .. => ("function")
  | .builtin .. => ("builtin")
  | .module name _ _ => name
  | .returnValue .. => ("")

/-- Inspect of every printed argument; calling Inspect on a nil argument
would dereference nil. -/
def inspectAll : List (Option Obj) → Option (List String)
  | [] => some []
  | none :: _ => none
  | some o :: rest =>
    match inspectAll rest with
    | some rs => some (inspect o :: rs)
    | none => none

/-- The native routines of the io module: preach prints each argument's
Inspect on its own line and yields NULL; input optionally prints a prompt,
then takes the next line of standard input, or the empty string once
input is exhausted. -/
def applyBuiltin (fn : BuiltinFn) (args : List (Option Obj)) (s : St) : Res :=
  match fn with
  | .preach =>
    match inspectAll args with
    | some lines => .ok (some .null) { s with output := s.output ++ lines }
    | none => .crash
  | .input =>
    match args with
    | none :: _ => .crash
    | some a :: _ =>
      let s1 := { s with output := s.output ++ [inspect a] }
      match s1.input with
      | line :: rest =>
        let (r, s2) := allocRef { s1 with input := rest }
        .ok (some (.string line r)) s2
      | [] =>
        let (r, s2) := allocRef s1
        .ok (some (.string ("") r)) s2
    | [] =>
      match s.input with
      | line :: rest =>
        let (r, s2) := allocRef { s with input := rest }
        .ok (some (.string line r)) s2
      | [] =>
        let (r, s2) := allocRef s
        .ok (some (.string ("") r)) s2

/-- createIOModule: the io module and its two builtins, allocated in
order. -/
def createIOModule (s : St) : Obj × St :=
  let (rm, s1) := allocRef s
  let (rp, s2) := allocRef s1
  let (ri, s3) := allocRef s2
  (.module ("io") [(("preach"), .builtin .preach rp), (("input"), .builtin .input ri)] rm, s3)

/-- loadModule: io, or an empty module for any unknown name. -/
def loadModule (name : String) (s : St) : Obj × St :=
  if name = ("io") then createIOModule s
  else
    let (r, s1) := allocRef s
    (.module name [] r, s1)

/-- Module.Get. -/
def moduleGet : List (String × Obj) → String → Option Obj
  | [], _ => none
  | (k, v) :: rest, name => if k = name then some v else moduleGet rest name

/-- evalWrangleStatement: load the module and bind it under its name. -/
def evalWrangleStatement (moduleName : String) (env : Nat) (s : St) : Res :=
  let (mod, s1) := loadModule moduleName s
  .ok (some mod) (envSet s1 env moduleName (some mod))

/-- The parameter-binding loop of evalFunctionCall: `for i, param :=
range fn.Parameters { fnEnv.Set(param.Value, args[i]) }` — positional,
with no arity check; `args[i]` is out of range the moment the parameters
outnumber the arguments, which in Go is a runtime panic. -/
def bindParams : List String → List (Option Obj) → Nat → St → Option St
  | [], _, _, s => some s
  | _ :: _, [], _, _ => none
  | p :: ps, a :: rest, env, s => bindParams ps rest env (envSet s env p a)

/-! ## The evaluator

One fuel-indexed mutual recursion; every function spends one unit of fuel
on entry, so any terminating run is reproduced exactly by a large enough
budget.  `Eval` is the dispatcher; the loop bodies of evalProgram,
evalBlockStatement, evalWhileLoop and evalExpressions are the recursions;
applyFunction is the second half of evalFunctionCall (from the builtin
check on). -/

mutual

def Eval : Nat → Node → Nat → St → Res
  | 0, _, _, _ => .fuelOut
  | fuel+1, node, env, s =>
    match node with
    | .program statements => evalProgram fuel statements env s
    | .expr e =>
      match e with
      | .integerLiteral v =>
        let (r, s1) := allocRef s
        .ok (some (.integer v r)) s1
      | .booleanLiteral b => .ok (some (nativeBoolToBooleanObject b)) s
      | .stringLiteral v =>
        let (r, s1) := allocRef s
        .ok (some (.string v r)) s1
      | .identifier name line col => evalIdentifier name line col env s
      | .prefixExpression op right line col =>
        match Eval fuel (.expr right) env s with
        | .ok r s1 => if isError r then .ok r s1 else evalPrefixExpression line col op r s1
        | other => other
      | .infixExpression op l r line col =>
        match Eval fuel (.expr l) env s with
        | .ok left s1 =>
          if isError left then .ok left s1
          else
            match Eval fuel (.expr r) env s1 with
            | .ok right s2 =>
              if isError right then .ok right s2
              else evalInfixExpression line col op left right s2
            | other => other
        | other => other
      | .functionCall fnExpr argExprs line col => evalFunctionCall fuel fnExpr argExprs line col env s
      | .memberAccessExpression objExpr member => evalMemberAccessExpression fuel objExpr member env s
    | .stmt st =>
      match st with
      | .variableDeclaration name value =>
        match Eval fuel (.expr value) env s with
        | .ok val s1 => .ok val (envSet s1 env name val)
        | other => other
      | .assignmentStatement name value => evalAssignmentStatement fuel name value env s
      | .blockStatement statements => evalBlockStatement fuel statements env s
      | .ifStatement cond cons alt => evalIfStatement fuel cond cons alt env s
      | .whileLoop cond body => evalWhileLoop fuel cond body env s (some .null)
      | .functionDeclaration name params body => evalFunctionDeclaration name params body env s
      | .returnStatement value => evalReturnStatement fuel value env s
      | .wrangleStatement moduleName => evalWrangleStatement moduleName env s
      | .expressionStatement e => Eval fuel (.expr e) env s
termination_by structural fuel _ _ _ => fuel

/-- evalProgram: statements in order; stop at an Error; a ReturnValue
stops evaluation and is unwrapped to its inner value. -/
def evalProgram : Nat → List Stmt → Nat → St → Res
  | 0, _, _, _ => .fuelOut
  | _+1, [], _, s => .ok none s
  | fuel+1, st :: rest, env, s =>
    match Eval fuel (.stmt st) env s with
    | .ok result s1 =>
      if isError result then .ok result s1
      else
        match result with
        | some (.returnValue v _) => .ok v s1
        | _ =>
          match rest with
          | [] => .ok result s1
          | _ => evalProgram fuel rest env s1
    | other => other
termination_by structural fuel _ _ _ => fuel

/-- evalBlockStatement: statements in order; stop at an Error or at a
ReturnValue, the latter bubbling up still wrapped. -/
def evalBlockStatement : Nat → List Stmt → Nat → St → Res
  | 0, _, _, _ => .fuelOut
  | _+1, [], _, s => .ok none s
  | fuel+1, st :: rest, env, s =>
    match Eval fuel (.stmt st) env s with
    | .ok result s1 =>
      if isError result then .ok result s1
      else if isReturnValue result then .ok result s1
      else
        match rest with
        | [] => .ok result s1
        | _ => evalBlockStatement fuel rest env s1
    | other => other
termination_by structural fuel _ _ _ => fuel

/-- evalIfStatement: evaluate the condition (note: with no isError
check), then exactly one branch, or NULL with no alternative. -/
def evalIfStatement : Nat → Expr → Stmt → Option Stmt → Nat → St → Res
  | 0, _, _, _, _, _ => .fuelOut
  | fuel+1, cond, cons, alt, env, s =>
    match Eval fuel (.expr cond) env s with
    | .ok condition s1 =>
      if isTruthy condition then Eval fuel (.stmt cons) env s1
      else
        match alt with
        | some a => Eval fuel (.stmt a) env s1
        | none => .ok (some .null) s1
    | other => other
termination_by structural fuel _ _ _ _ _ => fuel

/-- evalWhileLoop: re-evaluate the condition (no isError check), run the
body while truthy (no isError check on the body either), return early on
a ReturnValue, else keep the last body result, initially NULL. -/
def evalWhileLoop : Nat → Expr → Stmt → Nat → St → Option Obj → Res
  | 0, _, _, _, _, _ => .fuelOut
  | fuel+1, cond, body, env, s, result =>
    match Eval fuel (.expr cond) env s with
    | .ok condition s1 =>
      if !isTruthy condition then .ok result s1
      else
        match Eval fuel (.stmt body) env s1 with
        | .ok r s2 =>
          if isReturnValue r then .ok r s2
          else evalWhileLoop fuel cond body env s2 r
        | other => other
    | other => other
termination_by structural fuel _ _ _ _ _ => fuel

/-- evalAssignmentStatement: evaluate the right-hand side and rebind
(note: with no isError check on the value). -/
def evalAssignmentStatement : Nat → String → Expr → Nat → St → Res
  | 0, _, _, _, _ => .fuelOut
  | fuel+1, name, value, env, s =>
    match Eval fuel (.expr value) env s with
    | .ok val s1 => .ok val (envSet s1 env name val)
    | other => other
termination_by structural fuel _ _ _ _ => fuel

/-- evalReturnStatement: wrap the evaluated value in a ReturnValue. -/
def evalReturnStatement : Nat → Expr → Nat → St → Res
  | 0, _, _, _ => .fuelOut
  | fuel+1, value, env, s =>
    match Eval fuel (.expr value) env s with
    | .ok val s1 =>
      let (r, s2) := allocRef s1
      .ok (some (.returnValue val r)) s2
    | other => other
termination_by structural fuel _ _ _ => fuel

/-- evalMemberAccessExpression: evaluate the object (no isError check);
a Module answers from its members, anything else silently yields NULL. -/
def evalMemberAccessExpression : Nat → Expr → String → Nat → St → Res
  | 0, _, _, _, _ => .fuelOut
  | fuel+1, objExpr, member, env, s =>
    match Eval fuel (.expr objExpr) env s with
    | .ok obj s1 =>
      match obj with
      | some (.module _ members _) =>
        match moduleGet members member with
        | some m => .ok (some m) s1
        | none => .ok (some .null) s1
      | _ => .ok (some .null) s1
    | other => other
termination_by structural fuel _ _ _ _ => fuel

/-- evalFunctionCall, first half: evaluate the callee, then every
argument; the error check on the arguments only fires when the list has
exactly one element. -/
def evalFunctionCall : Nat → Expr → List Expr → Nat → Nat → Nat → St → Res
  | 0, _, _, _, _, _, _ => .fuelOut
  | fuel+1, fnExpr, argExprs, line, col, env, s =>
    match Eval fuel (.expr fnExpr) env s with
    | .ok function s1 =>
      if isError function then .ok function s1
      else
        match evalExpressions fuel argExprs env s1 with
        | .okList args s2 =>
          match args with
          | [a] =>
            if isError a then .ok a s2 else applyFunction fuel function args line col s2
          | _ => applyFunction fuel function args line col s2
        | .fuelOut => .fuelOut
        | .crash => .crash
    | other => other
termination_by structural fuel _ _ _ _ _ _ => fuel

/-- evalExpressions: every argument evaluated left to right, all results
collected — with no short-circuit of any kind. -/
def evalExpressions : Nat → List Expr → Nat → St → ResL
  | 0, _, _, _ => .fuelOut
  | _+1, [], _, s => .okList [] s
  | fuel+1, e :: rest, env, s =>
    match Eval fuel (.expr e) env s with
    | .ok v s1 =>
      match evalExpressions fuel rest env s1 with
      | .okList vs s2 => .okList (v :: vs) s2
      | other => other
    | .fuelOut => .fuelOut
    | .crash => .crash
termination_by structural fuel _ _ _ => fuel

/-- evalFunctionCall, second half: a Builtin runs its routine directly; a
Function gets a fresh environment enclosed by its captured one,
positional parameter binding, body evaluation, error propagation and
ReturnValue unwrapping; anything else is the "not a function" error —
and a nil callee panics formatting it. -/
def applyFunction : Nat → Option Obj → List (Option Obj) → Nat → Nat → St → Res
  | 0, _, _, _, _, _ => .fuelOut
  | fuel+1, function, args, line, col, s =>
    match function with
    | some (.builtin fn _) => applyBuiltin fn args s
    | some (.function params body fenv _) =>
      let (fnEnvRef, s1) := newEnclosedEnv s (some fenv)
      match bindParams params args fnEnvRef s1 with
      | none => .crash
      | some s2 =>
        match Eval fuel (.stmt body) fnEnvRef s2 with
        | .ok result s3 =>
          if isError result then .ok result s3
          else
            match result with
            | some (.returnValue v _) => .ok v s3
            | _ => .ok (some .null) s3
        | other => other
    | some f => newErrorRes line col (("not a function: ") ++ typeOf f) s
    | none => .crash
termination_by structural fuel _ _ _ _ _ => fuel

end

/-! ## The entry point (main.go, after a clean parse)

Given the parsed program: a fresh top-level environment, Eval of the
program with the result discarded, then the ChurchOfBeef lookup and, when
it is a Function, Eval of its body in a new environment enclosed by the
function's captured one — that result discarded too.  The returned pair
is (exit status, standard output). -/

def initialState (inp : List String) : St :=
  { frames := [{ vars := [], outer := none }], nextRef := 0, output := [], input := inp }

def runMain (prog : List Stmt) (inp : List String) (fuel : Nat) : Option (Nat × List String) :=
  let s0 := initialState inp
  match Eval fuel (.program prog) 0 s0 with
  | .ok _ s1 =>
    match envGet s1 0 ("ChurchOfBeef") with
    | some entry =>
      match entry with
      | some (.function _ body fenv _) =>
        let (entryRef, s2) := newEnclosedEnv s1 (some fenv)
        match Eval fuel (.stmt body) entryRef s2 with
        | .ok _ s3 => some (0, s3.output)
        | _ => none
      | _ => some (1, s1.output ++ [("Error: ChurchOfBeef is not a function")])
    | none => some (1, s1.output ++ [("Error: no ChurchOfBeef() entry point function found")])
  | _ => none

/-! ## Arithmetic facts about the int64 wraparound -/

theorem wrap64_inInt64 (x : Int) : inInt64 (wrap64 x) := by
  unfold wrap64 inInt64; omega

theorem wrap64_emod (x : Int) : wrap64 x % 2 ^ 64 = x % 2 ^ 64 := by
  unfold wrap64; omega

/-! ## Concrete fixtures used by the claim theorems -/

def emptyState : St := initialState []

/-- The expression `5 + true`, its operator token at line 1, column 3. -/
def fivePlusTrue : Expr := .infixExpression ("+") (.integerLiteral 5) (.booleanLiteral true) 1 3

/-- An if statement whose condition evaluates to an Error: `if 5 + true:
1 beef`. -/
def ifErrorCond : Stmt :=
  .ifStatement fivePlusTrue (.blockStatement [.expressionStatement (.integerLiteral 1)]) none

/-- A while loop whose condition evaluates to an Error and whose body
returns: `feast while 5 + true: serve 7 beef`. -/
def whileErrorCond : Stmt :=
  .whileLoop fivePlusTrue (.blockStatement [.returnStatement (.integerLiteral 7)])

/-- Member access whose object expression evaluates to an Error:
`nope.x` with `nope` unbound. -/
def memberOnError : Expr := .memberAccessExpression (.identifier ("nope") 2 5) ("x")

/-- A two-iteration loop whose body errors on the first pass and yields 5
on the second: n starts at 0, the body increments n, then errors exactly
when n is 1. -/
def whileBodyErrorProg : List Stmt :=
  [ .variableDeclaration ("n") (.integerLiteral 0)
  , .whileLoop (.infixExpression ("<") (.identifier ("n") 1 1) (.integerLiteral 2) 1 1)
      (.blockStatement
        [ .assignmentStatement ("n") (.infixExpression ("+") (.identifier ("n") 2 2) (.integerLiteral 1) 2 2)
        , .ifStatement (.infixExpression ("==") (.identifier ("n") 3 3) (.integerLiteral 1) 3 3)
            (.blockStatement [.expressionStatement (.identifier ("nope") 3 9)])
            (some (.blockStatement [.expressionStatement (.integerLiteral 5)]))
        ])
  ]

/-- C1: the claim that every node kind short-circuits on a sub-evaluation
Error fails on the code, at exactly the node kinds the claim singles out.
An if statement whose condition evaluates to an Error runs its
consequence and the whole statement evaluates to the consequence's value
(the Error is discarded); a while loop treats an Error condition as
truthy and runs its body; an Error produced by the loop body does not
stop the loop and is overwritten by the next iteration's result; member
access on an Error object yields NULL.  Each conjunct evaluates such an
input and exhibits a final result with the Error gone. -/
theorem C1_errors_swallowed_by_if_while_member :
    Eval 20 (.stmt ifErrorCond) 0 emptyState
      = .ok (some (.integer 1 2))
          { frames := [{ vars := [], outer := none }], nextRef := 3, output := [], input := [] }
  ∧ Eval 20 (.stmt whileErrorCond) 0 emptyState
      = .ok (some (.returnValue (some (.integer 7 2)) 3))
          { frames := [{ vars := [], outer := none }], nextRef := 4, output := [], input := [] }
  ∧ Eval 20 (.expr memberOnError) 0 emptyState
      = .ok (some .null)
          { frames := [{ vars := [], outer := none }], nextRef := 1, output := [], input := [] }
  ∧ Eval 30 (.program whileBodyErrorProg) 0 emptyState
      = .ok (some (.integer 5 10))
          { frames := [{ vars := [(("n"), some (.integer 2 8))], outer := none }],
            nextRef := 12, output := [], input := [] } :=
  ⟨rfl, rfl, rfl, rfl⟩

/-- declare f(a, b) returning 7, then call f(nope, 2) with nope unbound. -/
def twoArgErrorProg : List Stmt :=
  [ .functionDeclaration ("f") [("a"), ("b")] (.blockStatement [.returnStatement (.integerLiteral 7)])
  , .expressionStatement
      (.functionCall (.identifier ("f") 5 1) [.identifier ("nope") 5 3, .integerLiteral 2] 5 1)
  ]

/-- declare g(a) returning 7, then call g(nope) with nope unbound. -/
def oneArgErrorProg : List Stmt :=
  [ .functionDeclaration ("g") [("a")] (.blockStatement [.returnStatement (.integerLiteral 7)])
  , .expressionStatement (.functionCall (.identifier ("g") 6 1) [.identifier ("nope") 6 3] 6 1)
  ]

/-- C2: the claim that an Error in any argument aborts the call fails on
the code for calls of two or more arguments.  evalExpressions evaluates
every argument even after one yields an Error (first conjunct: both
results are collected); in a two-argument call the Error is bound to the
first parameter and the body runs to completion, the call evaluating to 7
(second conjunct, with the Error visible in the call frame); only a
one-argument call propagates the Error (third conjunct), because the
caller's check reads `len(args) == 1 && isError(args[0])`. -/
theorem C2_multiarg_error_reaches_body :
    evalExpressions 20 [.identifier ("nope") 5 3, .integerLiteral 2] 0 emptyState
      = .okList [some (.error ("identifier not found: nope") 5 3 0), some (.integer 2 1)]
          { frames := [{ vars := [], outer := none }], nextRef := 2, output := [], input := [] }
  ∧ (∃ s2, Eval 30 (.program twoArgErrorProg) 0 emptyState = .ok (some (.integer 7 3)) s2
       ∧ envGet s2 1 ("a") = some (some (.error ("identifier not found: nope") 5 3 1)))
  ∧ (∃ s3, Eval 30 (.program oneArgErrorProg) 0 emptyState
       = .ok (some (.error ("identifier not found: nope") 6 3 1)) s3) :=
  ⟨rfl, ⟨_, rfl, rfl⟩, ⟨_, rfl⟩⟩

/-- A program whose entry-point body evaluates an unbound identifier. -/
def entryErrorProg : List Stmt :=
  [ .functionDeclaration ("ChurchOfBeef") []
      (.blockStatement [.expressionStatement (.identifier ("nope") 2 3)]) ]

/-- C3: the claim that a top-level Error is reported in the documented
format and the process exits non-zero fails on the code: main discards
the result of both Eval calls, so a program whose entry-point body errors
produces exit status 0 and writes nothing at all (first conjunct).  The
half of the claim that does hold, that no statement after the failure
point executes, is the second conjunct: evalProgram stops at the failing
statement and the declaration after it never runs (the final environment
is empty). -/
theorem C3_top_level_error_unreported :
    runMain entryErrorProg [] 30 = some (0, [])
  ∧ Eval 20 (.program
        [ .expressionStatement (.identifier ("nope") 1 1)
        , .variableDeclaration ("y") (.integerLiteral 1) ]) 0 emptyState
      = .ok (some (.error ("identifier not found: nope") 1 1 0))
          { frames := [{ vars := [], outer := none }], nextRef := 1, output := [], input := [] } :=
  ⟨rfl, rfl⟩

/-- The declaration `prep x = 5 + true`. -/
def declStoresError : Stmt := .variableDeclaration ("x") fivePlusTrue

/-- A state in which `x` is already bound (to Integer 0). -/
def xBoundState : St :=
  { frames := [{ vars := [(("x"), some (.integer 0 0))], outer := none }],
    nextRef := 1, output := [], input := [] }

/-- C4: the claim that Errors are never stored in user variables fails on
the code: the VariableDeclaration case of Eval and
evalAssignmentStatement both call env.Set on the evaluated value with no
isError check, so `prep x = 5 + true` binds the Error object itself under
x (first conjunct), and the assignment `x = 5 + true` rebinds x to the
Error likewise (second conjunct). -/
theorem C4_error_stored_in_variable :
    (∃ s2, Eval 20 (.stmt declStoresError) 0 emptyState
        = .ok (some (.error ("type mismatch: INTEGER + BOOLEAN") 1 3 1)) s2
      ∧ envGet s2 0 ("x") = some (some (.error ("type mismatch: INTEGER + BOOLEAN") 1 3 1)))
  ∧ (∃ s3, Eval 20 (.stmt (.assignmentStatement ("x")
          (.infixExpression ("+") (.integerLiteral 5) (.booleanLiteral true) 4 9))) 0 xBoundState
        = .ok (some (.error ("type mismatch: INTEGER + BOOLEAN") 4 9 2)) s3
      ∧ envGet s3 0 ("x") = some (some (.error ("type mismatch: INTEGER + BOOLEAN") 4 9 2))) :=
  ⟨⟨_, rfl, rfl⟩, ⟨_, rfl, rfl⟩⟩
/-- C5: `5 + true` evaluates to the Error with message exactly
"type mismatch: INTEGER + BOOLEAN" (first two conjuncts: at the Eval
level and for any state at the evalInfixExpression level); any two
operands of different type tags under an operator other than == and !=
produce the "type mismatch" Error (third conjunct); == and != on any
operand pair that is neither Integer-Integer nor String-String fall back
to the pointer-identity comparison refEq and yield a Boolean, never an
Error (fourth conjunct). -/
theorem C5_type_mismatch_and_identity_fallback :
    Eval 20 (.expr fivePlusTrue) 0 emptyState
      = .ok (some (.error ("type mismatch: INTEGER + BOOLEAN") 1 3 1))
          { frames := [{ vars := [], outer := none }], nextRef := 2, output := [], input := [] }
  ∧ (∀ (line col r1 : Nat) (s : St),
      evalInfixExpression line col ("+") (some (.integer 5 r1)) (some (.boolean true)) s
        = .ok (some (.error ("type mismatch: INTEGER + BOOLEAN") line col s.nextRef))
            { s with nextRef := s.nextRef + 1 })
  ∧ (∀ (line col : Nat) (op : String) (l r : Obj) (s : St),
      typeOf l ≠ typeOf r → op ≠ ("==") → op ≠ ("!=") →
      evalInfixExpression line col op (some l) (some r) s
        = .ok (some (.error (("type mismatch: ") ++ typeOf l ++ (" ") ++ op ++ (" ") ++ typeOf r)
            line col s.nextRef)) { s with nextRef := s.nextRef + 1 })
  ∧ (∀ (line col : Nat) (l r : Obj) (s : St),
      ¬(typeOf l = ("INTEGER") ∧ typeOf r = ("INTEGER")) →
      ¬(typeOf l = ("STRING") ∧ typeOf r = ("STRING")) →
      evalInfixExpression line col ("==") (some l) (some r) s
        = .ok (some (.boolean (refEq l r))) s
      ∧ evalInfixExpression line col ("!=") (some l) (some r) s
        = .ok (some (.boolean (!refEq l r))) s) := by
  refine ⟨rfl, fun line col r1 s => rfl, ?_, ?_⟩
  · intro line col op l r s hty h1 h2
    cases l <;> cases r <;>
      simp_all [evalInfixExpression, evalInfixFallback, evalInfixMismatch, typeOf,
        newErrorRes, allocRef, nativeBoolToBooleanObject]
  · intro line col l r s h1 h2
    cases l <;> cases r <;>
      simp_all [evalInfixExpression, evalInfixFallback, evalInfixMismatch, typeOf,
        newErrorRes, allocRef, nativeBoolToBooleanObject, optRefEq, refEq]

/-- Witness for C5: BOOLEAN - INTEGER is the type-mismatch Error;
TRUE == 3 falls back to identity and yields FALSE. -/
theorem C5_witness :
    evalInfixExpression 1 2 ("-") (some (.boolean true)) (some (.integer 3 0)) emptyState
      = .ok (some (.error ("type mismatch: BOOLEAN - INTEGER") 1 2 0))
          { frames := [{ vars := [], outer := none }], nextRef := 1, output := [], input := [] }
  ∧ evalInfixExpression 1 2 ("==") (some (.boolean true)) (some (.integer 3 0)) emptyState
      = .ok (some (.boolean false)) emptyState :=
  ⟨C5_type_mismatch_and_identity_fallback.2.2.1 1 2 ("-") (.boolean true) (.integer 3 0)
      emptyState (by decide) (by decide) (by decide),
    (C5_type_mismatch_and_identity_fallback.2.2.2 1 2 (.boolean true) (.integer 3 0)
      emptyState (by decide) (by decide)).1⟩

/-- declare f(a, b), then call f(5): one argument for two parameters. -/
def fewerArgsProg : List Stmt :=
  [ .functionDeclaration ("f") [("a"), ("b")] (.blockStatement [.expressionStatement (.integerLiteral 1)])
  , .expressionStatement (.functionCall (.identifier ("f") 3 1) [.integerLiteral 5] 3 1)
  ]

/-- C6: the parameter-binding loop indexes args positionally with no
arity validation: with fewer arguments than parameters the indexing is
out of range (bindParams has no binding to hand back, first conjunct, and
the whole call is the Go runtime panic, not a "wrong number of arguments"
Error: third conjunct); with at least as many arguments as parameters the
loop's indexing is safe and binding completes (second conjunct). -/
theorem C6_no_arity_check_out_of_range :
    (∀ (params : List String) (args : List (Option Obj)) (env : Nat) (s : St),
       args.length < params.length → bindParams params args env s = none)
  ∧ (∀ (params : List String) (args : List (Option Obj)) (env : Nat) (s : St),
       params.length ≤ args.length → ∃ s2, bindParams params args env s = some s2)
  ∧ Eval 30 (.program fewerArgsProg) 0 emptyState = .crash := by
  refine ⟨?_, ?_, rfl⟩
  · intro params
    induction params with
    | nil => intro args env s h; exact absurd h (Nat.not_lt_zero _)
    | cons p ps ih =>
      intro args env s h
      cases args with
      | nil => rfl
      | cons a rest =>
        have h2 : rest.length < ps.length := by
          simpa [Nat.succ_lt_succ_iff] using h
        exact ih rest env (envSet s env p a) h2
  · intro params
    induction params with
    | nil => intro args env s _; exact ⟨s, rfl⟩
    | cons p ps ih =>
      intro args env s h
      cases args with
      | nil => simp at h
      | cons a rest =>
        have h2 : ps.length ≤ rest.length := by
          simpa [Nat.succ_le_succ_iff] using h
        exact ih rest env (envSet s env p a) h2

/-- Witness for C6: two parameters, one argument is out of range; one
parameter, two arguments binds fine. -/
theorem C6_witness :
    bindParams [("a"), ("b")] [some .null] 0 emptyState = none
  ∧ (∃ s2, bindParams [("a")] [some .null, some .null] 0 emptyState = some s2) :=
  ⟨C6_no_arity_check_out_of_range.1 [("a"), ("b")] [some .null] 0 emptyState (by decide),
   C6_no_arity_check_out_of_range.2.1 [("a")] [some .null, some .null] 0 emptyState (by decide)⟩
/-- C7: on two Integer operands with b nonzero, every one of the eleven
operators matches native int64 semantics: the five arithmetic operators
produce the two's-complement wraparound of the exact result (stated as
the allocated Integer being wrap64 of the exact value, in int64 range and
congruent to the exact value modulo 2^64, with / and % truncating toward
zero as Go defines them), and the six comparisons produce the Boolean of
the exact mathematical comparison. -/
theorem C7_integer_infix_native_int64 (a b : Int) (r1 r2 line col : Nat) (s : St)
    (_ha : inInt64 a) (_hb : inInt64 b) (hb0 : b ≠ 0) :
    (evalIntegerInfixExpression line col ("+") (.integer a r1) (.integer b r2) s
       = .ok (some (.integer (wrap64 (a + b)) s.nextRef)) { s with nextRef := s.nextRef + 1 }
     ∧ inInt64 (wrap64 (a + b)) ∧ wrap64 (a + b) % 2 ^ 64 = (a + b) % 2 ^ 64)
  ∧ (evalIntegerInfixExpression line col ("-") (.integer a r1) (.integer b r2) s
       = .ok (some (.integer (wrap64 (a - b)) s.nextRef)) { s with nextRef := s.nextRef + 1 }
     ∧ inInt64 (wrap64 (a - b)) ∧ wrap64 (a - b) % 2 ^ 64 = (a - b) % 2 ^ 64)
  ∧ (evalIntegerInfixExpression line col ("*") (.integer a r1) (.integer b r2) s
       = .ok (some (.integer (wrap64 (a * b)) s.nextRef)) { s with nextRef := s.nextRef + 1 }
     ∧ inInt64 (wrap64 (a * b)) ∧ wrap64 (a * b) % 2 ^ 64 = (a * b) % 2 ^ 64)
  ∧ (evalIntegerInfixExpression line col ("/") (.integer a r1) (.integer b r2) s
       = .ok (some (.integer (wrap64 (Int.tdiv a b)) s.nextRef)) { s with nextRef := s.nextRef + 1 }
     ∧ inInt64 (wrap64 (Int.tdiv a b)) ∧ wrap64 (Int.tdiv a b) % 2 ^ 64 = Int.tdiv a b % 2 ^ 64)
  ∧ (evalIntegerInfixExpression line col ("%") (.integer a r1) (.integer b r2) s
       = .ok (some (.integer (wrap64 (Int.tmod a b)) s.nextRef)) { s with nextRef := s.nextRef + 1 }
     ∧ inInt64 (wrap64 (Int.tmod a b)) ∧ wrap64 (Int.tmod a b) % 2 ^ 64 = Int.tmod a b % 2 ^ 64)
  ∧ evalIntegerInfixExpression line col ("<") (.integer a r1) (.integer b r2) s
      = .ok (some (.boolean (decide (a < b)))) s
  ∧ evalIntegerInfixExpression line col (">") (.integer a r1) (.integer b r2) s
      = .ok (some (.boolean (decide (a > b)))) s
  ∧ evalIntegerInfixExpression line col ("==") (.integer a r1) (.integer b r2) s
      = .ok (some (.boolean (decide (a = b)))) s
  ∧ evalIntegerInfixExpression line col ("!=") (.integer a r1) (.integer b r2) s
      = .ok (some (.boolean (!decide (a = b)))) s
  ∧ evalIntegerInfixExpression line col ("<=") (.integer a r1) (.integer b r2) s
      = .ok (some (.boolean (decide (a ≤ b)))) s
  ∧ evalIntegerInfixExpression line col (">=") (.integer a r1) (.integer b r2) s
      = .ok (some (.boolean (decide (a ≥ b)))) s := by
  refine ⟨⟨rfl, wrap64_inInt64 _, wrap64_emod _⟩,
          ⟨rfl, wrap64_inInt64 _, wrap64_emod _⟩,
          ⟨rfl, wrap64_inInt64 _, wrap64_emod _⟩,
          ⟨?_, wrap64_inInt64 _, wrap64_emod _⟩,
          ⟨?_, wrap64_inInt64 _, wrap64_emod _⟩,
          rfl, rfl, rfl, rfl, rfl, rfl⟩
  · show (if b = 0 then Res.crash else allocIntRes (wrap64 (Int.tdiv a b)) s) = _
    rw [if_neg hb0]; rfl
  · show (if b = 0 then Res.crash else allocIntRes (wrap64 (Int.tmod a b)) s) = _
    rw [if_neg hb0]; rfl

/-- Witness for C7: 7 and 3 are in int64 range, 3 is nonzero, and 7 + 3
and 7 / 3 come out as the wrapped exact results. -/
theorem C7_witness :
    evalIntegerInfixExpression 1 1 ("+") (.integer 7 0) (.integer 3 1) emptyState
      = .ok (some (.integer (wrap64 (7 + 3)) 0))
          { frames := [{ vars := [], outer := none }], nextRef := 1, output := [], input := [] }
  ∧ evalIntegerInfixExpression 1 1 ("/") (.integer 7 0) (.integer 3 1) emptyState
      = .ok (some (.integer (wrap64 (Int.tdiv 7 3)) 0))
          { frames := [{ vars := [], outer := none }], nextRef := 1, output := [], input := [] } :=
  ⟨(C7_integer_infix_native_int64 7 3 0 1 1 1 emptyState
      (by unfold inInt64; decide) (by unfold inInt64; decide) (by decide)).1.1,
   (C7_integer_infix_native_int64 7 3 0 1 1 1 emptyState
      (by unfold inInt64; decide) (by unfold inInt64; decide) (by decide)).2.2.2.1.1⟩

/-- C8: the while-loop contract.  First conjunct: Eval enters
evalWhileLoop with the accumulated result initialized to NULL.  Second:
a condition that evaluates falsy ends the loop at once with value NULL
and exactly the condition evaluation's effects (the body is never
evaluated).  Third: a body evaluation that produces a ReturnValue ends
the loop immediately with that ReturnValue, still wrapped.  Fourth: when
the condition is truthy once and then falsy, the loop's value is the last
body evaluation's result. -/
theorem C8_while_loop_contract :
    (∀ (fuel env : Nat) (cond : Expr) (body : Stmt) (s : St),
       Eval (fuel+1) (.stmt (.whileLoop cond body)) env s
         = evalWhileLoop fuel cond body env s (some .null))
  ∧ (∀ (fuel env : Nat) (cond : Expr) (body : Stmt) (s s1 : St) (c : Option Obj),
       Eval fuel (.expr cond) env s = .ok c s1 → isTruthy c = false →
       evalWhileLoop (fuel+1) cond body env s (some .null) = .ok (some .null) s1)
  ∧ (∀ (fuel env : Nat) (cond : Expr) (body : Stmt) (s s1 s2 : St) (c rv : Option Obj),
       Eval fuel (.expr cond) env s = .ok c s1 → isTruthy c = true →
       Eval fuel (.stmt body) env s1 = .ok rv s2 → isReturnValue rv = true →
       ∀ acc : Option Obj, evalWhileLoop (fuel+1) cond body env s acc = .ok rv s2)
  ∧ (∀ (fuel env : Nat) (cond : Expr) (body : Stmt) (s s1 s2 s3 : St) (c bv c2 : Option Obj),
       Eval (fuel+1) (.expr cond) env s = .ok c s1 → isTruthy c = true →
       Eval (fuel+1) (.stmt body) env s1 = .ok bv s2 → isReturnValue bv = false →
       Eval fuel (.expr cond) env s2 = .ok c2 s3 → isTruthy c2 = false →
       ∀ acc : Option Obj, evalWhileLoop (fuel+2) cond body env s acc = .ok bv s3) := by
  refine ⟨fun fuel env cond body s => rfl, ?_, ?_, ?_⟩
  · intro fuel env cond body s s1 c h1 h2
    simp [evalWhileLoop, h1, h2]
  · intro fuel env cond body s s1 s2 c rv h1 h2 h3 h4 acc
    simp [evalWhileLoop, h1, h2, h3, h4]
  · intro fuel env cond body s s1 s2 s3 c bv c2 h1 h2 h3 h4 h5 h6 acc
    simp [evalWhileLoop, h1, h2, h3, h4, h5, h6]

/-- The loop condition `c` (an identifier). -/
def condC : Expr := .identifier ("c") 1 1

/-- A body that immediately returns 7. -/
def bodyReturn : Stmt := .blockStatement [.returnStatement (.integerLiteral 7)]

/-- A body that sets c to false and then yields 42. -/
def bodySetFalse : Stmt :=
  .blockStatement
    [ .assignmentStatement ("c") (.booleanLiteral false)
    , .expressionStatement (.integerLiteral 42) ]

/-- A state with c bound to TRUE. -/
def cTrueState : St :=
  { frames := [{ vars := [(("c"), some (.boolean true))], outer := none }],
    nextRef := 0, output := [], input := [] }

/-- A state with c bound to FALSE. -/
def cFalseState : St :=
  { frames := [{ vars := [(("c"), some (.boolean false))], outer := none }],
    nextRef := 0, output := [], input := [] }

/-- Witness for C8: with c false the loop yields NULL untouched; with c
true and a returning body the loop hands back the wrapped ReturnValue;
with c true and a body that flips c and yields 42, the loop's value is
42, the last body evaluation. -/
theorem C8_witness :
    evalWhileLoop 11 condC bodyReturn 0 cFalseState (some .null) = .ok (some .null) cFalseState
  ∧ evalWhileLoop 11 condC bodyReturn 0 cTrueState (some .null)
      = .ok (some (.returnValue (some (.integer 7 0)) 1))
          { frames := [{ vars := [(("c"), some (.boolean true))], outer := none }],
            nextRef := 2, output := [], input := [] }
  ∧ evalWhileLoop 12 condC bodySetFalse 0 cTrueState (some .null)
      = .ok (some (.integer 42 0))
          { frames := [{ vars := [(("c"), some (.boolean false))], outer := none }],
            nextRef := 1, output := [], input := [] } :=
  ⟨C8_while_loop_contract.2.1 10 0 condC bodyReturn cFalseState cFalseState
      (some (.boolean false)) rfl rfl,
   C8_while_loop_contract.2.2.1 10 0 condC bodyReturn cTrueState cTrueState
      { frames := [{ vars := [(("c"), some (.boolean true))], outer := none }],
        nextRef := 2, output := [], input := [] }
      (some (.boolean true)) (some (.returnValue (some (.integer 7 0)) 1))
      rfl rfl rfl rfl (some .null),
   C8_while_loop_contract.2.2.2 10 0 condC bodySetFalse cTrueState cTrueState
      { frames := [{ vars := [(("c"), some (.boolean false))], outer := none }],
        nextRef := 1, output := [], input := [] }
      { frames := [{ vars := [(("c"), some (.boolean false))], outer := none }],
        nextRef := 1, output := [], input := [] }
      (some (.boolean true)) (some (.integer 42 0)) (some (.boolean false))
      rfl rfl rfl rfl rfl rfl (some .null)⟩

/-- C9: the bang operator always yields one of the two Boolean
singletons (first conjunct, and the prefix dispatcher hands `!` straight
to it: second conjunct); it yields TRUE exactly on FALSE and NULL (third
conjunct), so 0 and the empty string are treated as truthy (fourth and
fifth conjuncts); and it is involutive on truthiness: the truthiness of
double-bang of x equals the truthiness of x, for every operand (sixth
conjunct). -/
theorem C9_bang_truthiness_involutive :
    (∀ x : Option Obj, ∃ b : Bool, evalBangOperator x = .boolean b)
  ∧ (∀ (line col : Nat) (right : Option Obj) (s : St),
       evalPrefixExpression line col ("!") right s = .ok (some (evalBangOperator right)) s)
  ∧ (∀ x : Option Obj,
       evalBangOperator x = .boolean true ↔ (x = some (.boolean false) ∨ x = some .null))
  ∧ (∀ r : Nat, evalBangOperator (some (.integer 0 r)) = .boolean false)
  ∧ (∀ r : Nat, evalBangOperator (some (.string ("") r)) = .boolean false)
  ∧ (∀ x : Option Obj,
       isTruthy (some (evalBangOperator (some (evalBangOperator x)))) = isTruthy x) := by
  refine ⟨?_, fun line col right s => rfl, ?_, fun r => rfl, fun r => rfl, ?_⟩
  · intro x
    match x with
    | none => exact ⟨false, rfl⟩
    | some (.boolean true) => exact ⟨false, rfl⟩
    | some (.boolean false) => exact ⟨true, rfl⟩
    | some .null => exact ⟨true, rfl⟩
    | some (.integer ..) => exact ⟨false, rfl⟩
    | some (.string ..) => exact ⟨false, rfl⟩
    | some (.function ..) => exact ⟨false, rfl⟩
    | some (.builtin ..) => exact ⟨false, rfl⟩
    | some (.module ..) => exact ⟨false, rfl⟩
    | some (.returnValue ..) => exact ⟨false, rfl⟩
    | some (.error ..) => exact ⟨false, rfl⟩
  · intro x
    match x with
    | none => simp [evalBangOperator]
    | some (.boolean true) => simp [evalBangOperator]
    | some (.boolean false) => simp [evalBangOperator]
    | some .null => simp [evalBangOperator]
    | some (.integer ..) => simp [evalBangOperator]
    | some (.string ..) => simp [evalBangOperator]
    | some (.function ..) => simp [evalBangOperator]
    | some (.builtin ..) => simp [evalBangOperator]
    | some (.module ..) => simp [evalBangOperator]
    | some (.returnValue ..) => simp [evalBangOperator]
    | some (.error ..) => simp [evalBangOperator]
  · intro x
    match x with
    | none => rfl
    | some (.boolean true) => rfl
    | some (.boolean false) => rfl
    | some .null => rfl
    | some (.integer ..) => rfl
    | some (.string ..) => rfl
    | some (.function ..) => rfl
    | some (.builtin ..) => rfl
    | some (.module ..) => rfl
    | some (.returnValue ..) => rfl
    | some (.error ..) => rfl

/-- C10: == and != on two String operands compare character contents,
whatever the two allocations are (first conjunct); in particular two
distinct allocations of "a" compare equal (second conjunct); and every
operator on two Strings other than +, == and != is the unknown-operator
Error with STRING on both sides (third conjunct). -/
theorem C10_string_value_equality :
    (∀ (a b : String) (r1 r2 line col : Nat) (s : St),
       evalInfixExpression line col ("==") (some (.string a r1)) (some (.string b r2)) s
         = .ok (some (.boolean (a == b))) s
     ∧ evalInfixExpression line col ("!=") (some (.string a r1)) (some (.string b r2)) s
         = .ok (some (.boolean (a != b))) s)
  ∧ evalInfixExpression 1 1 ("==") (some (.string ("a") 0)) (some (.string ("a") 1)) emptyState
      = .ok (some (.boolean true)) emptyState
  ∧ (∀ (a b : String) (r1 r2 line col : Nat) (s : St) (op : String),
       op ≠ ("+") → op ≠ ("==") → op ≠ ("!=") →
       evalInfixExpression line col op (some (.string a r1)) (some (.string b r2)) s
         = .ok (some (.error (("unknown operator: STRING ") ++ op ++ (" ") ++ ("STRING"))
             line col s.nextRef)) { s with nextRef := s.nextRef + 1 }) := by
  refine ⟨fun a b r1 r2 line col s => ⟨rfl, rfl⟩, rfl, ?_⟩
  intro a b r1 r2 line col s op h1 h2 h3
  simp [evalInfixExpression, evalStringInfixExpression, typeOf, evalInfixMismatch,
    newErrorRes, allocRef, h1, h2, h3]

/-- Witness for C10: minus on two strings is the unknown-operator
Error. -/
theorem C10_witness :
    evalInfixExpression 2 4 ("-") (some (.string ("x") 0)) (some (.string ("y") 1)) emptyState
      = .ok (some (.error ("unknown operator: STRING - STRING") 2 4 0))
          { frames := [{ vars := [], outer := none }], nextRef := 1, output := [], input := [] } :=
  C10_string_value_equality.2.2 ("x") ("y") 0 1 2 4 emptyState ("-")
    (by decide) (by decide) (by decide)
end Beeflang
